import Mathlib

/-!
Verification of the Tally Prime 7 connector subsystem
(`services/data-ingest-service/app/connectors/tally`): extractors,
transformers and the orchestrating connector, shallowly embedded in Lean.

Strings are modelled as Lean `String`s (lists of characters); Python's
`str.strip` / `str.upper` / `str.lower` / `str.split` are re-implemented
character-wise below for the ASCII behaviour the connector relies on.
Python `float` values are modelled as rationals (`ℚ`); the builtin
`float(str)` conversion is modelled by `pyFloatOfString`, a parser for
finite decimal literals (optional sign, digits, decimal point, exponent),
which returns `none` where Python raises `ValueError`.  Exceptions are
modelled with `Except`: a function that can raise returns
`Except PyErr α`, a function whose body catches every error it can
produce is total.
-/

namespace Tally

/-- Characters treated as whitespace by Python's `str.strip` / `str.split`
(ASCII whitespace plus the common Unicode space characters). -/
def pyIsSpace (c : Char) : Bool :=
  c = ' ' || c = '\t' || c = '\n' || c = '\r' ||
  c = (Char.ofNat 11) || c = (Char.ofNat 12) ||
  c = (Char.ofNat 0x1c) || c = (Char.ofNat 0x1d) ||
  c = (Char.ofNat 0x1e) || c = (Char.ofNat 0x1f) ||
  c = (Char.ofNat 0x85) || c = (Char.ofNat 0xa0)

/-- Python `str.strip()` on a list of characters: drop whitespace from
both ends. -/
def pyStripL (l : List Char) : List Char :=
  ((l.dropWhile pyIsSpace).reverse.dropWhile pyIsSpace).reverse

/-- Python `str.strip()`. -/
def pyStrip (s : String) : String :=
  ⟨pyStripL s.data⟩

/-- Python `str.upper()` on one character (ASCII case mapping, the
fragment of the Unicode mapping the connector's inputs exercise). -/
def pyUpperChar (c : Char) : Char :=
  if 97 ≤ c.toNat ∧ c.toNat ≤ 122 then Char.ofNat (c.toNat - 32) else c

/-- Python `str.lower()` on one character (ASCII case mapping). -/
def pyLowerChar (c : Char) : Char :=
  if 65 ≤ c.toNat ∧ c.toNat ≤ 90 then Char.ofNat (c.toNat + 32) else c

/-- Python `str.upper()`. -/
def pyUpper (s : String) : String :=
  ⟨s.data.map pyUpperChar⟩

/-- Python `str.lower()`. -/
def pyLower (s : String) : String :=
  ⟨s.data.map pyLowerChar⟩

/-- Python `str.replace(old, new)` for one-character pattern and
replacement, as used by `_slugify`. -/
def pyReplaceChar (old new : Char) (s : String) : String :=
  ⟨s.data.map (fun c => if c = old then new else c)⟩

/-- Python `str.replace(old, "")` for a one-character pattern: delete
every occurrence, as used on thousands separators by `_float`. -/
def pyRemoveChar (old : Char) (s : String) : String :=
  ⟨s.data.filter (fun c => c ≠ old)⟩

/-- Helper for `pySplitWs`: walk the characters keeping the (reversed)
current word in the accumulator, emitting it at each whitespace run. -/
def pySplitWsAux : List Char → List Char → List (List Char)
  | [], acc => if acc.isEmpty then [] else [acc.reverse]
  | c :: t, acc =>
    if pyIsSpace c then
      if acc.isEmpty then pySplitWsAux t [] else acc.reverse :: pySplitWsAux t []
    else pySplitWsAux t (c :: acc)

/-- Python `str.split()` with no argument: split on runs of whitespace,
discarding empty fields. -/
def pySplitWs (s : String) : List String :=
  (pySplitWsAux s.data []).map (fun l => ⟨l⟩)

/-- Helper for `pySplitChar`: split at every separator occurrence,
keeping empty fields, the accumulator holding the reversed current
field. -/
def pySplitCharAux (sep : Char) : List Char → List Char → List (List Char)
  | [], acc => [acc.reverse]
  | c :: t, acc =>
    if c = sep then acc.reverse :: pySplitCharAux sep t []
    else pySplitCharAux sep t (c :: acc)

/-- Python `str.split(sep)` for a one-character separator (also the
path-segment split `ElementTree` applies to `find` paths): empty fields
are kept, and the empty string yields `[""]`. -/
def pySplitChar (sep : Char) (s : String) : List String :=
  (pySplitCharAux sep s.data []).map (fun l => ⟨l⟩)

/-- Python `str.isdigit()` restricted to ASCII digits (the date strings
the connector normalises are ASCII). -/
def pyIsDigit (c : Char) : Bool :=
  48 ≤ c.toNat && c.toNat ≤ 57

/-- Numeric value of a list of ASCII digit characters, most significant
first (the usual positional reading). -/
def digitsVal (l : List Char) : ℕ :=
  l.foldl (fun a c => 10 * a + (c.toNat - 48)) 0

/-- Python's builtin `float(str)` on finite decimal literals: surrounding
whitespace is ignored, then an optional sign, a mantissa that must contain
at least one digit (`"10"`, `"1.5"`, `".5"`, `"5."`), and an optional
`e`/`E` exponent with an optional sign and at least one digit.  `none`
models the `ValueError` Python raises on any other string (the special
forms `inf`/`nan`, irrelevant to the connector's data, are out of the
model). -/
def pyFloatOfString (s : String) : Option ℚ :=
  let l := pyStripL s.data
  let sgn : ℚ × List Char :=
    match l with
    | '+' :: t => (1, t)
    | '-' :: t => (-1, t)
    | t => (1, t)
  let ds₁ := sgn.2.takeWhile pyIsDigit
  let r₁ := sgn.2.dropWhile pyIsDigit
  let frac : List Char × List Char :=
    match r₁ with
    | '.' :: t => (t.takeWhile pyIsDigit, t.dropWhile pyIsDigit)
    | t => ([], t)
  if ds₁.isEmpty && frac.1.isEmpty then none
  else
    let mant : ℚ := (digitsVal ds₁ : ℚ) + (digitsVal frac.1 : ℚ) / ((10 : ℚ) ^ frac.1.length)
    match frac.2 with
    | [] => some (sgn.1 * mant)
    | c :: t =>
      if c = 'e' || c = 'E' then
        let esgn : Bool × List Char :=
          match t with
          | '+' :: t₂ => (true, t₂)
          | '-' :: t₂ => (false, t₂)
          | t₂ => (true, t₂)
        let eds := esgn.2.takeWhile pyIsDigit
        let rest := esgn.2.dropWhile pyIsDigit
        if eds.isEmpty || !rest.isEmpty then none
        else
          let p : ℚ := (10 : ℚ) ^ digitsVal eds
          some (sgn.1 * mant * (if esgn.1 then p else p⁻¹))
      else none

/-! ### XML documents

Model of the `xml.etree.ElementTree` elements the extractors walk: a tag,
an attribute mapping, optional text content and a list of child elements.
-/

/-- An XML element as produced by `ElementTree`. -/
inductive XML where
  | elem (tag : String) (attrs : List (String × String)) (text : Option String)
      (children : List XML)

/-- Tag of an element. -/
def XML.tag : XML → String
  | .elem t _ _ _ => t

/-- Attributes of an element. -/
def XML.attrs : XML → List (String × String)
  | .elem _ a _ _ => a

/-- Text content of an element (`None` in Python when absent). -/
def XML.text : XML → Option String
  | .elem _ _ tx _ => tx

/-- Children of an element. -/
def XML.children : XML → List XML
  | .elem _ _ _ cs => cs

/-- Python `element.get(key, default)`: attribute lookup. -/
def XML.get (x : XML) (key : String) (default : String) : String :=
  match x.attrs.find? (fun p => p.1 = key) with
  | some p => p.2
  | none => default

mutual

/-- All proper descendants of an element, in document order — the result
of `ElementTree`'s `findall(".//TAG")` before tag filtering. -/
def XML.descendants : XML → List XML
  | .elem _ _ _ cs => XML.descList cs

/-- Descendants of a list of sibling elements, each preceded by itself. -/
def XML.descList : List XML → List XML
  | [] => []
  | c :: rest => c :: (XML.descendants c ++ XML.descList rest)

end

/-- One step of `ElementTree` path search: the children of each current
node whose tag matches the path segment, in document order. -/
def XML.pathStep (cur : List XML) (seg : String) : List XML :=
  cur.flatMap (fun n => n.children.filter (fun c => XML.tag c = seg))

/-- Python `element.find(path)`: the path is split on `/`, each segment
matched against children tag-wise, and the first complete match in
document order is returned (`None` when there is none). -/
def XML.findET (x : XML) (path : String) : Option XML :=
  ((pySplitChar '/' path).foldl XML.pathStep [x]).head?

/-! ### BaseExtractor parsing helpers

Direct translations of the static methods of
`app/connectors/tally/extractors/base_extractor.py`.
-/

/-- An exception escaping a modelled Python function. -/
inductive PyErr where
  | valueError (msg : String)
  | connectionError (msg : String)
  deriving DecidableEq

/-- `BaseExtractor._text`: safely get the stripped text content of a
child element, or `default` when the parent is `None`, the child is
missing, or its text is `None`. -/
def extractorText (element : Option XML) (tag : String) (default : String := "") : String :=
  match element with
  | none => default
  | some e =>
    match XML.findET e tag with
    | none => default
    | some child =>
      match child.text with
      | none => default
      | some t => pyStrip t

/-- `BaseExtractor._float`: safely parse a float from a child element's
text — missing parent/child and falsy (empty) text give `default`, and the
`float(...)` call is wrapped in `try/except ValueError`, so an unparsable
text also gives `default`.  Thousands separators (`,`) are stripped before
parsing. -/
def extractorFloat (element : Option XML) (tag : String) (default : ℚ := 0) : ℚ :=
  match element with
  | none => default
  | some e =>
    match XML.findET e tag with
    | none => default
    | some child =>
      match child.text with
      | none => default
      | some t =>
        if t = "" then default
        else
          match pyFloatOfString (pyRemoveChar ',' (pyStrip t)) with
          | some q => q
          | none => default

/-- `BaseExtractor._bool`: safely parse a boolean from a child element's
text — missing parent/child and falsy (empty) text give `default`,
otherwise the stripped, lower-cased text is compared against
`("yes", "true", "1")`. -/
def extractorBool (element : Option XML) (tag : String) (default : Bool := false) : Bool :=
  match element with
  | none => default
  | some e =>
    match XML.findET e tag with
    | none => default
    | some child =>
      match child.text with
      | none => default
      | some t =>
        if t = "" then default
        else pyLower (pyStrip t) ∈ ["yes", "true", "1"]

/-- `BaseExtractor._iter_collection`: all elements with the given tag
anywhere under `root` (`findall(".//tag")`). -/
def iterCollection (root : XML) (itemTag : String) : List XML :=
  root.descendants.filter (fun e => XML.tag e = itemTag)

/-! ### Raw records

The extractors emit Python dictionaries; each `record_type` uses a fixed
key set, so the dictionaries are modelled as one flat structure holding
the union of all keys, with each record type filling its own keys and
every other key keeping the Python-falsy default (`""`, `0.0`, `False`,
`None`, `[]`) — exactly the values `dict.get` with those defaults yields
for an absent key on the consuming side.
-/

/-- One entry of a voucher's `ledger_entries` list. -/
structure LedgerEntryR where
  ledger_name : String := ""
  amount : ℚ := 0
  cost_centre : String := ""
  narration : String := ""
  deriving DecidableEq

/-- One entry of a voucher's `inventory_entries` list. -/
structure InvEntryR where
  item_name : String := ""
  quantity : ℚ := 0
  rate : ℚ := 0
  amount : ℚ := 0
  uom : Option String := none
  batch_name : String := ""
  deriving DecidableEq

/-- A raw record dictionary as produced by the extractors. -/
structure RawRecord where
  record_type : String := ""
  name : String := ""
  aliasVal : String := ""
  parent : String := ""
  uom : Option String := none
  opening_balance : ℚ := 0
  opening_rate : ℚ := 0
  opening_value : ℚ := 0
  is_batch_enabled : Bool := false
  gst_applicable : Bool := false
  hsn_code : String := ""
  description : String := ""
  address : String := ""
  state : String := ""
  country : String := ""
  mobile : String := ""
  email : String := ""
  gstin : String := ""
  pan : String := ""
  credit_limit : ℚ := 0
  credit_days : ℤ := 0
  is_customer : Bool := false
  is_supplier : Bool := false
  closing_balance : ℚ := 0
  is_revenue : Bool := false
  gst_duty_head : String := ""
  tax_classification : String := ""
  voucher_number : String := ""
  voucher_type : String := ""
  date : String := ""
  party_name : String := ""
  narration : String := ""
  reference : String := ""
  amount : ℚ := 0
  ledger_entries : List LedgerEntryR := []
  inventory_entries : List InvEntryR := []
  is_cancelled : Bool := false
  guid : String := ""
  item_name : String := ""
  quantity : ℚ := 0
  rate : ℚ := 0
  batch_name : String := ""
  godown : String := ""
  is_inward : Bool := false
  net_value : ℚ := 0
  value : ℚ := 0
  deriving DecidableEq

/-! ### Connection model

`TallyConnection.export_collection` performs the network exchange and
returns the parsed root element.  The server is modelled as a function
from the request arguments to the response document; connection-level
failures abort a whole extraction call in the source and are outside the
per-record properties below, so the modelled server always responds.
-/

/-- Arguments of one `export_collection` call. -/
structure ExportArgs where
  collection_name : String
  report_name : String
  filters : List (String × String) := []
  from_date : Option String := none
  to_date : Option String := none

/-- A Tally server: each `export_collection` request yields a parsed XML
root. -/
def TallyServer : Type := ExportArgs → XML

/-! ### Extractors -/

/-- Python `needle in haystack` character-by-character matching at the
head of the haystack. -/
def substrAt : List Char → List Char → Bool
  | [], _ => true
  | _ :: _, [] => false
  | c :: t, h :: hs => (c = h) && substrAt t hs

/-- Python `needle in haystack` on strings: substring containment. -/
def substrAny (n : List Char) : List Char → Bool
  | [] => n.isEmpty
  | h :: hs => substrAt n (h :: hs) || substrAny n hs

/-- Python `needle in haystack` for strings. -/
def pyInStr (needle hay : String) : Bool :=
  substrAny needle.data hay.data

/-- Python `int(f)` on a float: truncation toward zero. -/
def pyTrunc (q : ℚ) : ℤ :=
  q.num.tdiv q.den

/-- The raw stock-item dictionary `MasterExtractor.extract_stock_items`
builds for one `STOCKITEM` element, including the two-stage name
fallback: child `NAME` text, else the `NAME` attribute, else
`"unknown"`. -/
def mkStockItemRecord (item : XML) : RawRecord :=
  let name₀ := let t := extractorText (some item) "NAME"
               if t ≠ "" then t else item.get "NAME" ""
  let name := if name₀ = "" then item.get "NAME" "unknown" else name₀
  { record_type := "stock_item"
    name := name
    aliasVal := extractorText (some item) "LANGUAGENAME.LIST/NAME.LIST/NAME"
    parent := extractorText (some item) "PARENT"
    uom := some (extractorText (some item) "BASEUNITS")
    opening_balance := extractorFloat (some item) "OPENINGBALANCE"
    opening_rate := extractorFloat (some item) "OPENINGRATE"
    opening_value := extractorFloat (some item) "OPENINGVALUE"
    is_batch_enabled := extractorBool (some item) "ISBATCHWISEON"
    gst_applicable := extractorBool (some item) "ISGSTAPPLICABLE"
    hsn_code := extractorText (some item) "HSNDETAILS.LIST/HSNCODE"
    description := extractorText (some item) "DESCRIPTION" }

/-- `MasterExtractor.extract_stock_items`: fetch the stock-item
collection and truncate the mapped records at `batch_size`. -/
def MasterExtractor.extractStockItems (conn : TallyServer) (batch_size : ℕ) : List RawRecord :=
  let root := conn { collection_name := "Stock Items", report_name := "Stock Items" }
  ((iterCollection root "STOCKITEM").map mkStockItemRecord).take batch_size

/-- The raw party dictionary `MasterExtractor.extract_parties` builds for
one `LEDGER` element. -/
def mkPartyRecord (ledger : XML) : RawRecord :=
  let parent := extractorText (some ledger) "PARENT"
  let name₀ := let t := extractorText (some ledger) "NAME"
               if t ≠ "" then t else ledger.get "NAME" ""
  let name := if name₀ = "" then ledger.get "NAME" "unknown" else name₀
  { record_type := "party"
    name := name
    parent := parent
    address := extractorText (some ledger) "ADDRESS.LIST/ADDRESS"
    state := extractorText (some ledger) "COUNTRYNAME"
    country := extractorText (some ledger) "LEDGERCONTACT"
    mobile := extractorText (some ledger) "LEDMOBILE"
    email := extractorText (some ledger) "EMAIL"
    gstin := extractorText (some ledger) "PARTYGSTIN"
    pan := extractorText (some ledger) "INCOMETAXNUMBER"
    credit_limit := extractorFloat (some ledger) "CREDITLIMIT"
    credit_days := pyTrunc (extractorFloat (some ledger) "BILLCREDITPERIOD")
    is_customer := pyInStr "debtor" (pyLower parent)
    is_supplier := pyInStr "creditor" (pyLower parent)
    opening_balance := extractorFloat (some ledger) "OPENINGBALANCE" }

/-- `MasterExtractor.extract_parties`: fetch the sundry debtor/creditor
ledgers and truncate the mapped records at `batch_size`. -/
def MasterExtractor.extractParties (conn : TallyServer) (batch_size : ℕ) : List RawRecord :=
  let root := conn { collection_name := "Ledgers", report_name := "Ledger",
                     filters := [("PARENT", "Sundry Debtors,Sundry Creditors")] }
  ((iterCollection root "LEDGER").map mkPartyRecord).take batch_size

/-- `MasterExtractor.extract`: stock items (when `include_items`) followed
by parties (when `include_parties`); the date arguments are accepted and
unused, as in the source. -/
def MasterExtractor.extract (conn : TallyServer) (batch_size : ℕ)
    (from_date to_date : Option String)
    (include_items : Bool := true) (include_parties : Bool := true) : List RawRecord :=
  let _ := from_date
  let _ := to_date
  (if include_items then MasterExtractor.extractStockItems conn batch_size else []) ++
  (if include_parties then MasterExtractor.extractParties conn batch_size else [])

/-- The raw ledger dictionary `LedgerExtractor.extract` builds for one
`LEDGER` element. -/
def mkLedgerRecord (ledger : XML) : RawRecord :=
  let name₀ := let t := extractorText (some ledger) "NAME"
               if t ≠ "" then t else ledger.get "NAME" ""
  let name := if name₀ = "" then ledger.get "NAME" "unknown" else name₀
  { record_type := "ledger"
    name := name
    parent := extractorText (some ledger) "PARENT"
    opening_balance := extractorFloat (some ledger) "OPENINGBALANCE"
    closing_balance := extractorFloat (some ledger) "CLOSINGBALANCE"
    is_revenue := extractorBool (some ledger) "ISREVENUE"
    gst_duty_head := extractorText (some ledger) "GSTDUTYHEAD"
    tax_classification := extractorText (some ledger) "TAXCLASSIFICATIONNAME" }

/-- `LedgerExtractor.extract`: fetch all ledger accounts and truncate at
`batch_size`. -/
def LedgerExtractor.extract (conn : TallyServer) (batch_size : ℕ)
    (from_date to_date : Option String) : List RawRecord :=
  let root := conn { collection_name := "Ledgers", report_name := "Ledger",
                     from_date := from_date, to_date := to_date }
  ((iterCollection root "LEDGER").map mkLedgerRecord).take batch_size

/-- `DEFAULT_VOUCHER_TYPES` from `voucher_extractor.py`. -/
def defaultVoucherTypes : List String :=
  ["Sales", "Purchase", "Receipt", "Payment", "Journal", "Contra",
   "Credit Note", "Debit Note"]

/-- One ledger entry parsed by `VoucherExtractor._extract_ledger_entries`. -/
def mkLedgerEntry (entry : XML) : LedgerEntryR :=
  { ledger_name := extractorText (some entry) "LEDGERNAME"
    amount := extractorFloat (some entry) "AMOUNT"
    cost_centre := extractorText (some entry) "COSTCENTRENAME"
    narration := extractorText (some entry) "NARRATION" }

/-- One inventory entry parsed by
`VoucherExtractor._extract_inventory_entries`; the unit of measure is the
last whitespace-separated token of the `ACTUALQTY` text when that text is
non-empty (a non-empty stripped string always has a last token). -/
def mkInvEntry (entry : XML) : InvEntryR :=
  let actualQtyStr := extractorText (some entry) "ACTUALQTY"
  { item_name := extractorText (some entry) "STOCKITEMNAME"
    quantity := extractorFloat (some entry) "ACTUALQTY"
    rate := extractorFloat (some entry) "RATE"
    amount := extractorFloat (some entry) "AMOUNT"
    uom := if actualQtyStr = "" then none else (pySplitWs actualQtyStr).getLast?
    batch_name := extractorText (some entry) "BATCHNAME" }

/-- The raw voucher dictionary `VoucherExtractor.extract` builds for one
`VOUCHER` element. -/
def mkVoucherRecord (v : XML) (vtype : String) : RawRecord :=
  { record_type := "voucher"
    voucher_number := let t := extractorText (some v) "VOUCHERNUMBER"
                      if t ≠ "" then t else v.get "VCHNO" ""
    voucher_type := vtype
    date := extractorText (some v) "DATE"
    party_name := extractorText (some v) "PARTYLEDGERNAME"
    narration := extractorText (some v) "NARRATION"
    reference := extractorText (some v) "REFERENCE"
    amount := extractorFloat (some v) "AMOUNT"
    ledger_entries := (iterCollection v "ALLLEDGERENTRIES.LIST").map mkLedgerEntry
    inventory_entries := (iterCollection v "INVENTORYENTRIES.LIST").map mkInvEntry
    is_cancelled := extractorBool (some v) "ISCANCELLED"
    guid := v.get "GUID" "" }

/-- The voucher loop of `VoucherExtractor.extract`: skip vouchers whose
type is filtered out, append the rest, and break once the accumulated
list reaches `batch_size` (checked after every append). -/
def voucherLoop (batch_size : ℕ) (voucher_types : List String) :
    List XML → List RawRecord → List RawRecord
  | [], acc => acc
  | v :: rest, acc =>
    let vtype := extractorText (some v) "VOUCHERTYPENAME"
    if voucher_types ≠ [] ∧ vtype ∉ voucher_types then
      voucherLoop batch_size voucher_types rest acc
    else
      let acc' := acc ++ [mkVoucherRecord v vtype]
      if batch_size ≤ acc'.length then acc'
      else voucherLoop batch_size voucher_types rest acc'

/-- `VoucherExtractor.extract`. -/
def VoucherExtractor.extract (conn : TallyServer) (batch_size : ℕ)
    (from_date to_date : Option String)
    (voucher_types : List String := defaultVoucherTypes) : List RawRecord :=
  let root := conn { collection_name := "Vouchers", report_name := "Voucher Register",
                     from_date := from_date, to_date := to_date }
  voucherLoop batch_size voucher_types (iterCollection root "VOUCHER") []

/-- `_INWARD_TYPES` from `inventory_extractor.py`. -/
def inwardTypes : List String :=
  ["Purchase", "Receipt Note", "Sales Return", "Stock Journal"]

/-- The entry loop of `InventoryExtractor.extract_movements` for one
voucher: entries with an empty stock-item name are skipped; when the
`ACTUALQTY` text splits into tokens, the first token is fed to the bare
builtin `float`, whose `ValueError` propagates (modelled as
`Except.error`); only when there are no tokens does the safe `_float`
helper supply the quantity. -/
def movementEntryLoop (vtype vnum vdate : String) :
    List XML → Except PyErr (List RawRecord)
  | [] => .ok []
  | entry :: rest =>
    let itemName := extractorText (some entry) "STOCKITEMNAME"
    if itemName = "" then movementEntryLoop vtype vnum vdate rest
    else
      let qtyStr := extractorText (some entry) "ACTUALQTY"
      let qtyParts := if qtyStr ≠ "" then pySplitWs qtyStr else []
      let qtyE : Except PyErr ℚ :=
        match qtyParts with
        | [] => .ok (extractorFloat (some entry) "ACTUALQTY")
        | p :: _ =>
          match pyFloatOfString p with
          | some q => .ok q
          | none => .error (.valueError "could not convert string to float")
      match qtyE with
      | .error e => .error e
      | .ok qty =>
        let uom : Option String :=
          match qtyParts with
          | _ :: u :: _ => some u
          | _ => none
        let record : RawRecord :=
          { record_type := "inventory_movement"
            item_name := itemName
            voucher_number := vnum
            voucher_type := vtype
            date := vdate
            quantity := |qty|
            rate := extractorFloat (some entry) "RATE"
            uom := uom
            batch_name := extractorText (some entry) "BATCHNAME"
            godown := extractorText (some entry) "GODOWNNAME"
            is_inward := vtype ∈ inwardTypes
            net_value := extractorFloat (some entry) "AMOUNT" }
        match movementEntryLoop vtype vnum vdate rest with
        | .error e => .error e
        | .ok tail => .ok (record :: tail)

/-- The voucher loop of `InventoryExtractor.extract_movements`: every
entry of a voucher is appended before the `batch_size` check runs, so
the bound is only tested between vouchers. -/
def movementVoucherLoop (batch_size : ℕ) :
    List XML → List RawRecord → Except PyErr (List RawRecord)
  | [], acc => .ok acc
  | v :: rest, acc =>
    let vtype := extractorText (some v) "VOUCHERTYPENAME"
    let vnum := extractorText (some v) "VOUCHERNUMBER"
    let vdate := extractorText (some v) "DATE"
    match movementEntryLoop vtype vnum vdate (iterCollection v "INVENTORYENTRIES.LIST") with
    | .error e => .error e
    | .ok entries =>
      let acc' := acc ++ entries
      if batch_size ≤ acc'.length then .ok acc'
      else movementVoucherLoop batch_size rest acc'

/-- `InventoryExtractor.extract_movements`. -/
def InventoryExtractor.extractMovements (conn : TallyServer) (batch_size : ℕ)
    (from_date to_date : Option String) : Except PyErr (List RawRecord) :=
  let root := conn { collection_name := "Vouchers", report_name := "Inventory Vouchers",
                     from_date := from_date, to_date := to_date }
  movementVoucherLoop batch_size (iterCollection root "VOUCHER") []

/-- The raw stock-balance dictionary
`InventoryExtractor.extract_stock_balances` builds for one `STOCKITEM`
element with a non-empty name. -/
def mkBalanceRecord (item : XML) (name : String) : RawRecord :=
  { record_type := "stock_balance"
    item_name := name
    godown := extractorText (some item) "GODOWNNAME"
    quantity := extractorFloat (some item) "CLOSINGBALANCE"
    rate := extractorFloat (some item) "CLOSINGRATE"
    value := extractorFloat (some item) "CLOSINGVALUE"
    uom := some (extractorText (some item) "BASEUNITS") }

/-- `InventoryExtractor.extract_stock_balances`: items with an empty name
(child text or attribute) are skipped, then the list is truncated at
`batch_size`. -/
def InventoryExtractor.extractStockBalances (conn : TallyServer) (batch_size : ℕ) :
    List RawRecord :=
  let root := conn { collection_name := "Stock Items", report_name := "Stock Summary" }
  (((iterCollection root "STOCKITEM").filterMap (fun item =>
      let name := let t := extractorText (some item) "NAME"
                  if t ≠ "" then t else item.get "NAME" ""
      if name = "" then none else some (mkBalanceRecord item name))).take batch_size)

/-- `InventoryExtractor.extract`: movements (when `include_movements`)
followed by stock balances (when `include_balances`); the `ValueError` an
unparsable quantity raises in the movement stream propagates out of
`extract`. -/
def InventoryExtractor.extract (conn : TallyServer) (batch_size : ℕ)
    (from_date to_date : Option String)
    (include_movements : Bool := true) (include_balances : Bool := true) :
    Except PyErr (List RawRecord) :=
  match (if include_movements then
      InventoryExtractor.extractMovements conn batch_size from_date to_date
    else .ok []) with
  | .error e => .error e
  | .ok movements =>
    let balances :=
      if include_balances then InventoryExtractor.extractStockBalances conn batch_size
      else []
    .ok (movements ++ balances)

/-! ### Unified records

The transformers emit Python dictionaries in the unified schema; as for
raw records, they are modelled as one flat structure holding the union of
all keys with Python-falsy defaults.  Keys whose value the source computes
as `... or None` are modelled as `Option String` (`none` for the `None`).
The flat model carries every key on every record, so `dict.get(key,
default)` is read as the stored field (extractor-produced records always
carry the keys their transformer reads).
-/

/-- One line item of a unified transaction (a ledger or inventory entry
flattened by `_transform_voucher`). -/
structure LineItem where
  ledger_name : Option String := none
  amount : ℚ := 0
  cost_centre : Option String := none
  item_name : Option String := none
  quantity : ℚ := 0
  rate : ℚ := 0
  uom : Option String := none
  batch_name : Option String := none
  deriving DecidableEq

/-- A unified-schema record dictionary as produced by the transformers. -/
structure URec where
  unified_type : String := ""
  source_id : String := ""
  sku_code : String := ""
  product_name : String := ""
  description : Option String := none
  uom : Option String := none
  category : String := ""
  unit_cost : ℚ := 0
  hsn_code : Option String := none
  is_active : Bool := false
  party_code : String := ""
  party_name : Option String := none
  party_type : String := ""
  email : Option String := none
  phone : Option String := none
  address : Option String := none
  gstin : Option String := none
  transaction_type : String := ""
  transaction_date : String := ""
  amount : ℚ := 0
  currency : String := ""
  reference : Option String := none
  narration : Option String := none
  line_items : List LineItem := []
  is_cancelled : Bool := false
  item_name : String := ""
  voucher_number : String := ""
  voucher_type : String := ""
  quantity : ℚ := 0
  rate : ℚ := 0
  batch_name : Option String := none
  godown : Option String := none
  is_inward : Bool := false
  net_value : ℚ := 0
  value : ℚ := 0
  ledger_name : String := ""
  parent_group : String := ""
  opening_balance : ℚ := 0
  closing_balance : ℚ := 0
  is_revenue : Bool := false
  raw : RawRecord := {}
  deriving DecidableEq

/-! ### Transformers -/

/-- `BaseTransformer._slugify`: strip, upper-case, then replace spaces and
slashes with underscores. -/
def slugify (name : String) : String :=
  pyReplaceChar '/' '_' (pyReplaceChar ' ' '_' (pyUpper (pyStrip name)))

/-- `BaseTransformer._safe_float`: coerce to float with a fallback.  On
the ℚ-typed values the raw-record model stores, Python's `float(value)`
always succeeds and is the identity; the absent-key case (`None` →
`default = 0.0`) coincides with the model's stored field default `0`. -/
def safeFloat (value : ℚ) (default : ℚ := 0) : ℚ :=
  let _ := default
  value

/-- Python `x or "d"` on strings: `x` when non-empty, else `"d"`. -/
def orDefault (s d : String) : String :=
  if s = "" then d else s

/-- Python `x or None` on strings: `None` when `x` is empty. -/
def orNone (s : String) : Option String :=
  if s = "" then none else some s

/-- Python `x or "d"` where `x` is an optional string. -/
def optOrDefault (v : Option String) (d : String) : String :=
  match v with
  | some s => if s = "" then d else s
  | none => d

/-- The `len(cleaned) == 8 and cleaned.isdigit()` test of
`_normalise_date`. -/
def is8DigitDate (c : String) : Bool :=
  c.data.length = 8 && c.data.all pyIsDigit

/-- The `"-" in cleaned and len(cleaned) == 10` test of
`_normalise_date`. -/
def isHyphen10 (c : String) : Bool :=
  c.data.contains '-' && c.data.length = 10

/-- `TransactionTransformer._normalise_date`: the empty string is
returned as is; otherwise the input is stripped, an 8-digit numeric
string is read as `YYYYMMDD`, a 10-character string containing `-` that
splits into three parts with a 2-character first part is read as
`DD-MM-YYYY`, and anything else yields the stripped input. -/
def normaliseDate (date_str : String) : String :=
  if date_str = "" then date_str
  else
    let cleaned := pyStrip date_str
    if is8DigitDate cleaned then
      (⟨cleaned.data.take 4⟩ : String) ++ "-" ++
        (⟨(cleaned.data.drop 4).take 2⟩ : String) ++ "-" ++
        (⟨(cleaned.data.drop 6).take 2⟩ : String)
    else if isHyphen10 cleaned then
      let parts := pySplitChar '-' cleaned
      if parts.length = 3 ∧ (parts.headD "").length = 2 then
        parts.getD 2 "" ++ "-" ++ parts.getD 1 "" ++ "-" ++ parts.getD 0 ""
      else cleaned
    else cleaned

/-- `MasterTransformer._transform_stock_item`: raises `ValueError` on an
empty name, otherwise maps to the unified item schema. -/
def transformStockItem (r : RawRecord) : Except PyErr URec :=
  if r.name = "" then .error (.valueError "Stock item has no name")
  else .ok
    { unified_type := "item"
      source_id := r.name
      sku_code := slugify r.name
      product_name := r.name
      description := orNone r.description
      uom := some (optOrDefault r.uom "EA")
      category := orDefault r.parent "Uncategorized"
      unit_cost := safeFloat r.opening_rate
      hsn_code := orNone r.hsn_code
      is_active := true
      raw := r }

/-- `MasterTransformer._transform_party`: raises `ValueError` on an empty
name, otherwise maps to the unified party schema with the party type
derived from the two boolean flags. -/
def transformParty (r : RawRecord) : Except PyErr URec :=
  if r.name = "" then .error (.valueError "Party has no name")
  else
    let party_type :=
      if r.is_customer && r.is_supplier then "both"
      else if r.is_customer then "customer"
      else if r.is_supplier then "supplier"
      else "other"
    .ok
      { unified_type := "party"
        source_id := r.name
        party_code := slugify r.name
        party_name := some r.name
        party_type := party_type
        email := orNone r.email
        phone := orNone r.mobile
        address := orNone r.address
        gstin := orNone r.gstin
        is_active := true
        raw := r }

/-- `MasterTransformer._transform_one`: dispatch on `record_type`; an
unknown type yields the empty (falsy) dictionary, modelled as `none`. -/
def masterTransformOne (r : RawRecord) : Except PyErr (Option URec) :=
  if r.record_type = "stock_item" then (transformStockItem r).map some
  else if r.record_type = "party" then (transformParty r).map some
  else .ok none

/-- `TransactionTransformer._transform_voucher`: raises `ValueError` on an
empty voucher number, otherwise flattens ledger and inventory line items
and maps to the unified transaction schema. -/
def transformVoucher (r : RawRecord) : Except PyErr URec :=
  if r.voucher_number = "" then .error (.valueError "Voucher has no voucher_number")
  else
    let ledgerItems := r.ledger_entries.map (fun e =>
      ({ ledger_name := some e.ledger_name
         amount := safeFloat e.amount
         cost_centre := some e.cost_centre } : LineItem))
    let invItems := r.inventory_entries.map (fun e =>
      ({ item_name := some e.item_name
         quantity := safeFloat e.quantity
         rate := safeFloat e.rate
         amount := safeFloat e.amount
         uom := e.uom
         batch_name := some e.batch_name } : LineItem))
    .ok
      { unified_type := "transaction"
        source_id := r.voucher_number
        transaction_type := r.voucher_type
        transaction_date := normaliseDate r.date
        party_name := orNone r.party_name
        amount := safeFloat r.amount
        currency := "INR"
        reference := orNone r.reference
        narration := orNone r.narration
        line_items := ledgerItems ++ invItems
        is_cancelled := r.is_cancelled
        raw := r }

/-- `TransactionTransformer._transform_inventory_movement`: total — no
check on any key; every movement record maps to a unified record. -/
def transformInventoryMovement (r : RawRecord) : URec :=
  { unified_type := "inventory_movement"
    source_id := r.voucher_number ++ "_" ++ r.item_name
    item_name := r.item_name
    voucher_number := r.voucher_number
    voucher_type := r.voucher_type
    transaction_date := normaliseDate r.date
    quantity := safeFloat r.quantity
    rate := safeFloat r.rate
    uom := r.uom
    batch_name := some r.batch_name
    godown := some r.godown
    is_inward := r.is_inward
    net_value := safeFloat r.net_value
    raw := r }

/-- `TransactionTransformer._transform_stock_balance`: total — no check
on any key. -/
def transformStockBalance (r : RawRecord) : URec :=
  { unified_type := "stock_balance"
    source_id := r.item_name ++ "_" ++ r.godown
    item_name := r.item_name
    godown := some r.godown
    quantity := safeFloat r.quantity
    rate := safeFloat r.rate
    value := safeFloat r.value
    uom := r.uom
    raw := r }

/-- `TransactionTransformer._transform_ledger`: raises `ValueError` on an
empty name. -/
def transformLedger (r : RawRecord) : Except PyErr URec :=
  if r.name = "" then .error (.valueError "Ledger has no name")
  else .ok
    { unified_type := "ledger"
      source_id := r.name
      ledger_name := r.name
      parent_group := r.parent
      opening_balance := safeFloat r.opening_balance
      closing_balance := safeFloat r.closing_balance
      is_revenue := r.is_revenue
      raw := r }

/-- `TransactionTransformer._transform_one`: dispatch on `record_type`;
an unknown type yields the empty (falsy) dictionary, modelled as
`none`. -/
def transactionTransformOne (r : RawRecord) : Except PyErr (Option URec) :=
  if r.record_type = "voucher" then (transformVoucher r).map some
  else if r.record_type = "inventory_movement" then .ok (some (transformInventoryMovement r))
  else if r.record_type = "stock_balance" then .ok (some (transformStockBalance r))
  else if r.record_type = "ledger" then (transformLedger r).map some
  else .ok none

/-- `BaseTransformer.transform_batch`: iterate all records through the
subclass's `_transform_one` (passed as `transformOne`), append each truthy
(non-empty) result, skip falsy results, and catch every per-record
exception, so the function is total. -/
def transformBatch (transformOne : RawRecord → Except PyErr (Option URec)) :
    List RawRecord → List URec
  | [] => []
  | r :: rest =>
    match transformOne r with
    | .ok (some u) => u :: transformBatch transformOne rest
    | .ok none => transformBatch transformOne rest
    | .error _ => transformBatch transformOne rest

/-- `MasterTransformer.transform`: delegates to `transform_batch`. -/
def MasterTransformer.transform (records : List RawRecord) : List URec :=
  transformBatch masterTransformOne records

/-- `TransactionTransformer.transform`: delegates to `transform_batch`. -/
def TransactionTransformer.transform (records : List RawRecord) : List URec :=
  transformBatch transactionTransformOne records

/-! ### Connector orchestration (`tally_connector.py`)

The connector holds a `TallyConnection` (here a `TallyServer`) and a
connected flag set by `connect()`/`disconnect()`; the flag is passed
explicitly to the methods that read it.  `sync`'s wall-clock duration and
the logging calls are outside the model.
-/

/-- `TallyDataType` from `models.py`. -/
inductive TallyDataType where
  | masters
  | ledgers
  | vouchers
  | inventory
  | all
  deriving DecidableEq

/-- The `.value` string of a `TallyDataType` member. -/
def TallyDataType.value : TallyDataType → String
  | .masters => "masters"
  | .ledgers => "ledgers"
  | .vouchers => "vouchers"
  | .inventory => "inventory"
  | .all => "all"

/-- `TallySyncMode` from `models.py`. -/
inductive TallySyncMode where
  | full
  | incremental
  deriving DecidableEq

/-- The fields of `TallyConnectorConfig` the orchestration reads (the
connection settings live in the `TallyServer`). -/
structure TallyConnectorConfig where
  enabled_data_types : List TallyDataType := [.all]
  sync_mode : TallySyncMode := .incremental
  batch_size : ℕ := 500

/-- `TallyConnector._extract_by_type`: dispatch to the extractor matching
the data-type string; an unknown string — including `"all"` — logs a
warning and returns the empty list (no exception). -/
def extractByType (conn : TallyServer) (batch_size : ℕ) (data_type : String)
    (from_date to_date : Option String) : Except PyErr (List RawRecord) :=
  if data_type = TallyDataType.masters.value then
    .ok (MasterExtractor.extract conn batch_size from_date to_date)
  else if data_type = TallyDataType.ledgers.value then
    .ok (LedgerExtractor.extract conn batch_size from_date to_date)
  else if data_type = TallyDataType.vouchers.value then
    .ok (VoucherExtractor.extract conn batch_size from_date to_date)
  else if data_type = TallyDataType.inventory.value then
    InventoryExtractor.extract conn batch_size from_date to_date
  else
    .ok []

/-- `TallyConnector.fetch_data`: raises `ConnectionError` when not
connected, otherwise lower-cases and strips the query and dispatches it
with no date window. -/
def fetchData (conn : TallyServer) (connected : Bool) (cfg : TallyConnectorConfig)
    (query : String) : Except PyErr (List RawRecord) :=
  if !connected then .error (.connectionError "Not connected to Tally. Call connect() first.")
  else
    let data_type := pyStrip (pyLower query)
    extractByType conn cfg.batch_size data_type none none

/-- `TallyConnector._transform`: masters use the `MasterTransformer`,
everything else the `TransactionTransformer`. -/
def connectorTransform (raw_records : List RawRecord) (data_type : TallyDataType) :
    List URec :=
  if data_type = TallyDataType.masters then MasterTransformer.transform raw_records
  else TransactionTransformer.transform raw_records

/-- The body of `fetch_all`'s per-type loop: extract and transform one
data type, with any exception caught and logged — a failing type
contributes nothing to the accumulated result. -/
def processType (conn : TallyServer) (cfg : TallyConnectorConfig)
    (from_date to_date : Option String) (data_type : TallyDataType) : List URec :=
  match extractByType conn cfg.batch_size data_type.value from_date to_date with
  | .ok raw => connectorTransform raw data_type
  | .error _ => []

/-- `TallyConnector.fetch_all`: raises `ConnectionError` when not
connected; otherwise the requested types (falling back to the configured
ones when the argument is `None` or the empty list, and expanding `all`
into the four concrete types) are each extracted and transformed
independently, the per-type results being accumulated in order. -/
def fetchAll (conn : TallyServer) (connected : Bool) (cfg : TallyConnectorConfig)
    (from_date to_date : Option String) (data_types : Option (List TallyDataType)) :
    Except PyErr (List URec) :=
  if !connected then .error (.connectionError "Not connected to Tally. Call connect() first.")
  else
    let types₀ :=
      match data_types with
      | none => cfg.enabled_data_types
      | some l => if l.isEmpty then cfg.enabled_data_types else l
    let types_to_fetch :=
      if TallyDataType.all ∈ types₀ then
        [TallyDataType.masters, TallyDataType.ledgers, TallyDataType.vouchers,
         TallyDataType.inventory]
      else types₀
    .ok (types_to_fetch.foldl
      (fun all_records t => all_records ++ processType conn cfg from_date to_date t) [])

/-- `TallyConnector.sync`: resolve the mode (argument over configured
default), null out the date window in FULL mode, and run `fetch_all`;
the returned statistics and wall-clock duration are outside the model,
so the result is the `records` list. -/
def sync (conn : TallyServer) (connected : Bool) (cfg : TallyConnectorConfig)
    (sync_mode : Option TallySyncMode) (from_date to_date : Option String)
    (data_types : Option (List TallyDataType)) : Except PyErr (List URec) :=
  let mode := sync_mode.getD cfg.sync_mode
  let fd := if mode = TallySyncMode.full then none else from_date
  let td := if mode = TallySyncMode.full then none else to_date
  fetchAll conn connected cfg fd td data_types

/-! ### Concrete fixtures

Small concrete servers, elements and records used by the closed
instantiations below.
-/

/-- The `export_collection` arguments `extract_movements` sends. -/
def invVouchersArgs (fd td : Option String) : ExportArgs :=
  { collection_name := "Vouchers", report_name := "Inventory Vouchers",
    from_date := fd, to_date := td }

/-- A response holding two bare stock items and two bare ledgers. -/
def rootTwoEach : XML :=
  .elem "ENVELOPE" [] none
    [.elem "STOCKITEM" [] none [], .elem "STOCKITEM" [] none [],
     .elem "LEDGER" [] none [], .elem "LEDGER" [] none []]

/-- A server answering every request with `rootTwoEach`. -/
def serverTwoEach : TallyServer := fun _ => rootTwoEach

/-- An element whose `FLAG` child has explicitly empty text. -/
def flagEmptyElem : XML :=
  .elem "ROOT" [] none [.elem "FLAG" [] (some "") []]

/-- An element whose `FLAG` child has text `" TRUE "`. -/
def flagTrueElem : XML :=
  .elem "ROOT" [] none [.elem "FLAG" [] (some " TRUE ") []]

/-- An inventory entry whose `ACTUALQTY` text is a comma-grouped quantity
with a unit — the format `"10 Nos"` the repository's own test data uses,
with a thousands separator added. -/
def entryCommaQty : XML :=
  .elem "INVENTORYENTRIES.LIST" [] none
    [.elem "STOCKITEMNAME" [] (some "Widget A") [],
     .elem "ACTUALQTY" [] (some "1,234.56 Nos") []]

/-- A voucher holding `entryCommaQty`. -/
def voucherCommaQty : XML :=
  .elem "VOUCHER" [] none
    [.elem "VOUCHERTYPENAME" [] (some "Purchase") [], entryCommaQty]

/-- A server whose voucher report holds `voucherCommaQty`. -/
def serverCommaQty : TallyServer := fun _ => .elem "ENVELOPE" [] none [voucherCommaQty]

/-- An inventory-movement raw record with every natural-key field empty
(the flat-record defaults). -/
def emptyMovementRecord : RawRecord :=
  { record_type := "inventory_movement" }

/-- A well-formed stock-item raw record. -/
def stockItemRecordA : RawRecord :=
  { record_type := "stock_item", name := "Widget A" }

/-- A stock-item raw record with an empty name (malformed). -/
def stockItemRecordNoName : RawRecord :=
  { record_type := "stock_item" }

/-- A well-formed party raw record. -/
def partyRecordB : RawRecord :=
  { record_type := "party", name := "Customer B", is_customer := true }

/-- The unified record `masterTransformOne` produces for
`stockItemRecordA`. -/
def stockItemUnifiedA : URec :=
  { unified_type := "item"
    source_id := "Widget A"
    sku_code := "WIDGET_A"
    product_name := "Widget A"
    uom := some "EA"
    category := "Uncategorized"
    unit_cost := 0
    is_active := true
    raw := stockItemRecordA }

/-- An element whose `AMOUNT` child carries a comma-grouped number. -/
def amountCommaElem : XML :=
  .elem "E" [] none [.elem "AMOUNT" [] (some "1,234.56") []]

/-- The per-character action of `_slugify` after the strip: upper-case,
then replace a space and then a slash by an underscore. -/
def slugChar (c : Char) : Char :=
  let u := pyUpperChar c
  let r₁ := if u = ' ' then '_' else u
  if r₁ = '/' then '_' else r₁

/-- Whether `transformOne` maps a record to a truthy (non-empty) result
without raising. -/
def transformsSome (transformOne : RawRecord → Except PyErr (Option URec))
    (r : RawRecord) : Bool :=
  match transformOne r with
  | .ok (some _) => true
  | _ => false

/-! ## Theorems -/

/-- transform_batch keeps exactly the records their transformer maps to a
truthy result. -/
theorem transformBatch_length_all (transformOne : RawRecord → Except PyErr (Option URec)) :
    ∀ (l : List RawRecord), (∀ r ∈ l, transformsSome transformOne r = true) →
      (transformBatch transformOne l).length = l.length := by
  intro l
  induction l with
  | nil => intro _; rfl
  | cons r t ih =>
    intro h
    have hr := h r (by simp)
    unfold transformsSome at hr
    simp only [transformBatch]
    cases hf : transformOne r with
    | error e => rw [hf] at hr; simp at hr
    | ok o =>
      cases o with
      | none => rw [hf] at hr; simp at hr
      | some u =>
        simp only [List.length_cons]
        rw [ih (fun x hx => h x (by simp [hx]))]

/-- C9, counterexample: the claim says boolean parsing returns false for
any text outside the true-set, including empty text; but on a child whose
text is the empty string `_bool` returns the caller-supplied default, so
with default `True` it returns true. -/
theorem bool_empty_text_returns_default :
    extractorBool (some flagEmptyElem) "FLAG" true = true ∧
    extractorBool (some flagEmptyElem) "FLAG" true ≠ false := by
  decide

/-- C9, amended: for a non-empty child text `_bool` returns exactly the
membership of the stripped, lower-cased text in `("yes", "true", "1")`,
for every default; a missing parent, missing child, `None` text or empty
text returns the caller-supplied default instead. -/
theorem bool_parse_spec :
    (∀ (e : XML) (tag : String) (d : Bool) (child : XML) (t : String),
      XML.findET e tag = some child → child.text = some t → t ≠ "" →
      (extractorBool (some e) tag d = true ↔ pyLower (pyStrip t) ∈ ["yes", "true", "1"])) ∧
    (∀ (e : XML) (tag : String) (d : Bool) (child : XML),
      XML.findET e tag = some child → child.text = some "" →
      extractorBool (some e) tag d = d) ∧
    (∀ (e : XML) (tag : String) (d : Bool) (child : XML),
      XML.findET e tag = some child → child.text = none →
      extractorBool (some e) tag d = d) ∧
    (∀ (e : XML) (tag : String) (d : Bool),
      XML.findET e tag = none → extractorBool (some e) tag d = d) ∧
    (∀ (tag : String) (d : Bool), extractorBool none tag d = d) := by
  refine ⟨?_, ?_, ?_, ?_, ?_⟩
  · intro e tag d child t h1 h2 h3
    simp [extractorBool, h1, h2, h3]
  · intro e tag d child h1 h2
    simp [extractorBool, h1, h2]
  · intro e tag d child h1 h2
    simp [extractorBool, h1, h2]
  · intro e tag d h1
    simp [extractorBool, h1]
  · intro tag d
    simp [extractorBool]

/-- C9, instantiation: text `" TRUE "` with default `False` parses to
true. -/
theorem bool_parse_spec_inst :
    extractorBool (some flagTrueElem) "FLAG" false = true := by
  have h := bool_parse_spec.1 flagTrueElem "FLAG" false
    (XML.elem "FLAG" [] (some " TRUE ") []) " TRUE " rfl rfl (by decide)
  rw [h]
  decide

/-- C6, counterexample: the claim says any input not matching the two
date shapes passes through unchanged, but `_normalise_date` returns the
stripped input: `" x"` comes back as `"x"`. -/
theorem normalise_date_not_unchanged :
    normaliseDate " x" = "x" ∧ normaliseDate " x" ≠ " x" := by
  decide

/-- C6, amended: the empty string is returned unchanged; a non-empty
input is stripped, then an 8-digit numeric string is rewritten
`YYYYMMDD → YYYY-MM-DD`, a 10-character string containing `-` splitting
into three parts with a 2-character first part is rewritten
`DD-MM-YYYY → YYYY-MM-DD`, and every other input is returned stripped of
surrounding whitespace (not unchanged); the three documented examples
hold. -/
theorem normalise_date_spec :
    (∀ s : String, s ≠ "" → is8DigitDate (pyStrip s) = false →
      isHyphen10 (pyStrip s) = false → normaliseDate s = pyStrip s) ∧
    (∀ s : String, s ≠ "" → is8DigitDate (pyStrip s) = true →
      normaliseDate s =
        (⟨(pyStrip s).data.take 4⟩ : String) ++ "-" ++
        (⟨((pyStrip s).data.drop 4).take 2⟩ : String) ++ "-" ++
        (⟨((pyStrip s).data.drop 6).take 2⟩ : String)) ∧
    (∀ s : String, s ≠ "" → is8DigitDate (pyStrip s) = false →
      isHyphen10 (pyStrip s) = true →
      (pySplitChar '-' (pyStrip s)).length = 3 →
      (((pySplitChar '-' (pyStrip s)).headD "").length = 2) →
      normaliseDate s =
        (pySplitChar '-' (pyStrip s)).getD 2 "" ++ "-" ++
        (pySplitChar '-' (pyStrip s)).getD 1 "" ++ "-" ++
        (pySplitChar '-' (pyStrip s)).getD 0 "") ∧
    (∀ s : String, s ≠ "" → is8DigitDate (pyStrip s) = false →
      isHyphen10 (pyStrip s) = true →
      ¬((pySplitChar '-' (pyStrip s)).length = 3 ∧
        (((pySplitChar '-' (pyStrip s)).headD "").length = 2)) →
      normaliseDate s = pyStrip s) ∧
    normaliseDate "20240115" = "2024-01-15" ∧
    normaliseDate "15-01-2024" = "2024-01-15" ∧
    normaliseDate "" = "" := by
  refine ⟨?_, ?_, ?_, ?_, by decide, by decide, by decide⟩
  · intro s hs h8 hh
    simp [normaliseDate, hs, h8, hh]
  · intro s hs h8
    simp [normaliseDate, hs, h8]
  · intro s hs h8 hh hp hl
    simp [normaliseDate, hs, h8, hh, hp, hl]
    intro hx
    exact (hx (by simpa using hl)).elim
  · intro s hs h8 hh hp
    simp only [normaliseDate, hs, h8, hh, if_neg, if_pos, Bool.false_eq_true,
      ite_false, ite_true]
    rw [if_neg hp]

/-- C6, instantiation: `"foo"` (no date shape) is returned stripped —
here already stripped, so unchanged. -/
theorem normalise_date_spec_inst : normaliseDate "foo" = "foo" := by
  have h := normalise_date_spec.1 "foo" (by decide) (by decide) (by decide)
  rw [h]
  decide

/-- C3: the quantity parse of `InventoryExtractor.extract_movements`
applies the bare builtin `float` to the first whitespace token of
`ACTUALQTY`; on the comma-grouped `"1,234.56 Nos"` that call raises
`ValueError` and the whole extraction call aborts — while the shared
`_float` helper on the very same element falls back to its default, and
on a plain comma-grouped text parses the number with the separator
stripped. -/
theorem actualqty_parse_raises :
    InventoryExtractor.extractMovements serverCommaQty 500 none none =
      .error (.valueError "could not convert string to float") ∧
    InventoryExtractor.extract serverCommaQty 500 none none =
      .error (.valueError "could not convert string to float") ∧
    extractorFloat (some entryCommaQty) "ACTUALQTY" 0 = 0 ∧
    extractorFloat (some amountCommaElem) "AMOUNT" 0 = 123456 / 100 := by
  have h4 : extractorFloat (some amountCommaElem) "AMOUNT" 0
      = (1 : ℚ) * (((1234 : ℕ) : ℚ) + ((56 : ℕ) : ℚ) / (10 : ℚ) ^ (2 : ℕ)) := by
    rfl
  refine ⟨rfl, rfl, rfl, ?_⟩
  rw [h4]
  push_cast
  norm_num

/-- C4, counterexample: the claim says `fetch_data` on a connected
connector raises `ValueError` for an unsupported keyword; instead it
returns an empty list. -/
theorem fetch_data_unknown_ok_empty :
    fetchData serverTwoEach true {} "bogus" = .ok [] := by
  rfl

/-- C4, amended: on a connected connector, any query whose lower-cased,
stripped form is not one of the four concrete data-type keywords —
including `"all"`, which `_extract_by_type` does not handle — is logged
and answered with an empty list; no `ValueError` is raised. -/
theorem fetch_data_unknown_no_raise :
    ∀ (conn : TallyServer) (cfg : TallyConnectorConfig) (q : String),
      pyStrip (pyLower q) ∉ ["masters", "ledgers", "vouchers", "inventory"] →
      fetchData conn true cfg q = .ok [] := by
  intro conn cfg q h
  simp only [List.mem_cons, List.mem_singleton, not_or] at h
  obtain ⟨h1, h2, h3, h4⟩ := h
  simp [fetchData, extractByType, TallyDataType.value, h1, h2, h3, h4]

/-- C4, instantiation: the `"all"` keyword itself falls through the
dispatch and yields an empty list. -/
theorem fetch_data_unknown_no_raise_inst :
    fetchData serverTwoEach true {} "all" = .ok [] :=
  fetch_data_unknown_no_raise serverTwoEach {} "all" (by decide)

/-- C5: `transform_batch` on a batch of records that all transform
successfully plus one record whose transformation raises never raises
itself — it is a total function — and returns exactly the successfully
transformed records: dropping the bad record leaves the output unchanged,
and the output length is the number of good records. -/
theorem transform_batch_isolates_failure
    (transformOne : RawRecord → Except PyErr (Option URec))
    (l₁ l₂ : List RawRecord) (bad : RawRecord) (e : PyErr)
    (hbad : transformOne bad = .error e)
    (hok : ∀ r ∈ l₁ ++ l₂, transformsSome transformOne r = true) :
    transformBatch transformOne (l₁ ++ bad :: l₂) =
      transformBatch transformOne (l₁ ++ l₂) ∧
    (transformBatch transformOne (l₁ ++ l₂)).length = l₁.length + l₂.length := by
  constructor
  · induction l₁ with
    | nil => simp [transformBatch, hbad]
    | cons r t ih =>
      have ih' := ih (fun x hx => hok x (by simp at hx ⊢; tauto))
      simp only [List.cons_append, transformBatch]
      cases hf : transformOne r with
      | error e' => simpa using ih'
      | ok o => cases o with
        | none => simpa using ih'
        | some u => simp [ih']
  · rw [transformBatch_length_all transformOne (l₁ ++ l₂) hok]
    simp

/-- C5, instantiation: one nameless stock item among two good records is
skipped; the other two come through. -/
theorem transform_batch_isolates_failure_inst :
    transformBatch masterTransformOne
        [stockItemRecordA, stockItemRecordNoName, partyRecordB] =
      transformBatch masterTransformOne [stockItemRecordA, partyRecordB] ∧
    (transformBatch masterTransformOne [stockItemRecordA, partyRecordB]).length = 2 := by
  have h := transform_batch_isolates_failure masterTransformOne
    [stockItemRecordA] [partyRecordB] stockItemRecordNoName
    (PyErr.valueError "Stock item has no name") rfl (by decide)
  simpa using h

/-- C7: in FULL mode `sync` nulls out the caller's date window before
calling `fetch_all`, in INCREMENTAL mode it passes the window through
unchanged; and `_extract_by_type` hands exactly its date window to the
date-aware extractors. -/
theorem sync_mode_date_window :
    ∀ (conn : TallyServer) (connected : Bool) (cfg : TallyConnectorConfig)
      (fd td : Option String) (dts : Option (List TallyDataType)) (bs : ℕ),
      sync conn connected cfg (some .full) fd td dts =
        fetchAll conn connected cfg none none dts ∧
      sync conn connected cfg (some .incremental) fd td dts =
        fetchAll conn connected cfg fd td dts ∧
      extractByType conn bs TallyDataType.ledgers.value fd td =
        .ok (LedgerExtractor.extract conn bs fd td) ∧
      extractByType conn bs TallyDataType.vouchers.value fd td =
        .ok (VoucherExtractor.extract conn bs fd td) ∧
      extractByType conn bs TallyDataType.inventory.value fd td =
        InventoryExtractor.extract conn bs fd td := by
  intro conn connected cfg fd td dts bs
  exact ⟨rfl, rfl, rfl, rfl, rfl⟩

/-- Accumulating a per-element list with `++` over a fold is the
flattened map. -/
theorem foldl_append_flatMap {α β : Type} (g : α → List β) :
    ∀ (ts : List α) (acc : List β),
      ts.foldl (fun a t => a ++ g t) acc = acc ++ ts.flatMap g := by
  intro ts
  induction ts with
  | nil => intro acc; simp
  | cons t rest ih => intro acc; simp [ih, List.append_assoc]

/-- C8: on a connected connector, a requested list containing `all` is
expanded into the four concrete types, and the result is the in-order
concatenation of each type's independent extract-and-transform — where a
type whose extraction raises contributes the empty list, leaving every
other type's records in place. -/
theorem fetch_all_expands_and_isolates :
    ∀ (conn : TallyServer) (cfg : TallyConnectorConfig) (fd td : Option String)
      (l : List TallyDataType), TallyDataType.all ∈ l →
      fetchAll conn true cfg fd td (some l) =
        .ok ([TallyDataType.masters, TallyDataType.ledgers, TallyDataType.vouchers,
              TallyDataType.inventory].flatMap (processType conn cfg fd td)) ∧
      ∀ (t : TallyDataType) (e : PyErr),
        extractByType conn cfg.batch_size t.value fd td = .error e →
        processType conn cfg fd td t = [] := by
  intro conn cfg fd td l hl
  constructor
  · have hne : l.isEmpty = false := by
      cases l with
      | nil => simp at hl
      | cons a t => rfl
    simp only [fetchAll, Bool.not_true, Bool.false_eq_true, if_false, hne]
    rw [if_pos hl]
    rw [foldl_append_flatMap]
    simp
  · intro t e he
    simp [processType, he]

/-- C8, instantiation: requesting `[all]` on a trivial server yields the
four-type concatenation. -/
theorem fetch_all_expands_and_isolates_inst :
    fetchAll serverTwoEach true {} none none (some [TallyDataType.all]) =
      .ok ([TallyDataType.masters, TallyDataType.ledgers, TallyDataType.vouchers,
            TallyDataType.inventory].flatMap (processType serverTwoEach {} none none)) :=
  (fetch_all_expands_and_isolates serverTwoEach {} none none [TallyDataType.all]
    (by decide)).1

/-- C2, amended: records of the four keyed types (stock items and parties
on `name`, ledgers on `name`, vouchers on `voucher_number`) are dropped
when their key is empty — the transformer raises and `transform_batch`
skips them; but `inventory_movement` and `stock_balance` records are
transformed and emitted unconditionally, whatever their key fields
hold. -/
theorem natural_key_drop_by_type :
    ∀ (r : RawRecord) (rest : List RawRecord),
      ((r.record_type = "stock_item" ∨ r.record_type = "party") → r.name = "" →
        transformBatch masterTransformOne (r :: rest) =
          transformBatch masterTransformOne rest) ∧
      (r.record_type = "ledger" → r.name = "" →
        transformBatch transactionTransformOne (r :: rest) =
          transformBatch transactionTransformOne rest) ∧
      (r.record_type = "voucher" → r.voucher_number = "" →
        transformBatch transactionTransformOne (r :: rest) =
          transformBatch transactionTransformOne rest) ∧
      (r.record_type = "inventory_movement" →
        transformBatch transactionTransformOne (r :: rest) =
          transformInventoryMovement r :: transformBatch transactionTransformOne rest) ∧
      (r.record_type = "stock_balance" →
        transformBatch transactionTransformOne (r :: rest) =
          transformStockBalance r :: transformBatch transactionTransformOne rest) := by
  intro r rest
  refine ⟨?_, ?_, ?_, ?_, ?_⟩
  · rintro (h | h) hn
    · simp [transformBatch, masterTransformOne, transformStockItem, Except.map, h, hn]
    · simp [transformBatch, masterTransformOne, transformParty, Except.map, h, hn]
  · intro h hn
    simp [transformBatch, transactionTransformOne, transformLedger, Except.map, h, hn]
  · intro h hn
    simp [transformBatch, transactionTransformOne, transformVoucher, Except.map, h, hn]
  · intro h
    simp [transformBatch, transactionTransformOne, h]
  · intro h
    simp [transformBatch, transactionTransformOne, h]

/-- C2, instantiation: a nameless stock item alone yields an empty
batch. -/
theorem natural_key_drop_by_type_inst :
    transformBatch masterTransformOne [stockItemRecordNoName] = [] := by
  have h := (natural_key_drop_by_type stockItemRecordNoName []).1 (Or.inl rfl) rfl
  simpa using h

/-- The ASCII upper-case map never produces a lower-case letter. -/
theorem pyUpperChar_not_lower (c : Char) :
    ¬(97 ≤ (pyUpperChar c).toNat ∧ (pyUpperChar c).toNat ≤ 122) := by
  unfold pyUpperChar
  by_cases h : 97 ≤ c.toNat ∧ c.toNat ≤ 122
  · rw [if_pos h]
    obtain ⟨h1, h2⟩ := h
    generalize c.toNat = n at h1 h2 ⊢
    interval_cases n <;> decide
  · rw [if_neg h]
    exact h

/-- The ASCII upper-case map sends non-whitespace to non-whitespace. -/
theorem pyUpperChar_not_space (c : Char) (h : pyIsSpace c = false) :
    pyIsSpace (pyUpperChar c) = false := by
  unfold pyUpperChar
  by_cases hc : 97 ≤ c.toNat ∧ c.toNat ≤ 122
  · rw [if_pos hc]
    obtain ⟨h1, h2⟩ := hc
    generalize c.toNat = n at h1 h2 ⊢
    interval_cases n <;> decide
  · rw [if_neg hc]
    exact h

/-- The slug character map outputs no lower-case letter, no space and no
slash. -/
theorem slugChar_props (c : Char) :
    ¬(97 ≤ (slugChar c).toNat ∧ (slugChar c).toNat ≤ 122) ∧
    slugChar c ≠ ' ' ∧ slugChar c ≠ '/' := by
  unfold slugChar
  by_cases h1 : pyUpperChar c = ' '
  · simp [h1]
  · simp only [if_neg h1]
    by_cases h2 : pyUpperChar c = '/'
    · simp [h2]
    · simp only [if_neg h2]
      exact ⟨pyUpperChar_not_lower c, h1, h2⟩

/-- A character that is no lower-case letter, no space and no slash is a
fixed point of the slug map. -/
theorem slugChar_fixed (d : Char)
    (hA : ¬(97 ≤ d.toNat ∧ d.toNat ≤ 122)) (hB : d ≠ ' ') (hC : d ≠ '/') :
    slugChar d = d := by
  have hu : pyUpperChar d = d := by
    unfold pyUpperChar
    exact if_neg hA
  simp [slugChar, hu, hB, hC]

/-- The slug character map is idempotent. -/
theorem slugChar_idem (c : Char) : slugChar (slugChar c) = slugChar c := by
  obtain ⟨hA, hB, hC⟩ := slugChar_props c
  exact slugChar_fixed (slugChar c) hA hB hC

/-- The slug character map sends non-whitespace to non-whitespace. -/
theorem slugChar_not_space (c : Char) (h : pyIsSpace c = false) :
    pyIsSpace (slugChar c) = false := by
  unfold slugChar
  by_cases h1 : pyUpperChar c = ' '
  · simp [h1]
    decide
  · simp only [if_neg h1]
    by_cases h2 : pyUpperChar c = '/'
    · simp [h2]
      decide
    · simp only [if_neg h2]
      exact pyUpperChar_not_space c h

/-- `_slugify` is the slug character map applied after the strip. -/
theorem slugify_eq_map (s : String) :
    slugify s = ⟨(pyStripL s.data).map slugChar⟩ := by
  simp only [slugify, pyReplaceChar, pyUpper, pyStrip, List.map_map]
  rfl

/-- Dropping a satisfying prefix twice is dropping it once. -/
theorem dropWhile_idem (p : Char → Bool) (l : List Char) :
    (l.dropWhile p).dropWhile p = l.dropWhile p := by
  induction l with
  | nil => rfl
  | cons c t ih =>
    by_cases h : p c
    · simp [List.dropWhile_cons, h, ih]
    · simp [List.dropWhile_cons, h]

/-- A list `dropWhile` leaves unchanged does not start with a satisfying
character. -/
theorem dropWhile_eq_self_head (p : Char → Bool) (c : Char) (t : List Char)
    (h : List.dropWhile p (c :: t) = c :: t) : p c = false := by
  by_contra hc
  have hc' : p c = true := by simpa using hc
  rw [List.dropWhile_cons, if_pos hc'] at h
  have hlen := congrArg List.length h
  have hle := (List.dropWhile_suffix p : List.dropWhile p t <:+ t).length_le
  simp at hlen
  omega

/-- If `dropWhile` leaves a list unchanged it leaves every prefix of it
unchanged. -/
theorem dropWhile_prefix_self (p : Char → Bool) (l j : List Char)
    (h : List.dropWhile p (l ++ j) = l ++ j) : List.dropWhile p l = l := by
  cases l with
  | nil => rfl
  | cons c t =>
    have hc : p c = false := dropWhile_eq_self_head p c (t ++ j) (by simpa using h)
    simp [List.dropWhile_cons, hc]

/-- Every list is its back-stripped part followed by the stripped-off
whitespace. -/
theorem stripBack_append (p : Char → Bool) (l : List Char) :
    l = (List.dropWhile p l.reverse).reverse ++ (List.takeWhile p l.reverse).reverse := by
  calc l = l.reverse.reverse := (List.reverse_reverse l).symm
    _ = (List.takeWhile p l.reverse ++ List.dropWhile p l.reverse).reverse := by
        rw [List.takeWhile_append_dropWhile]
    _ = (List.dropWhile p l.reverse).reverse ++ (List.takeWhile p l.reverse).reverse := by
        rw [List.reverse_append]

/-- A stripped list has no leading whitespace. -/
theorem pyStripL_front (l : List Char) :
    List.dropWhile pyIsSpace (pyStripL l) = pyStripL l := by
  unfold pyStripL
  have idem := dropWhile_idem pyIsSpace l
  have hdecomp := stripBack_append pyIsSpace (List.dropWhile pyIsSpace l)
  exact dropWhile_prefix_self pyIsSpace _ _ (hdecomp ▸ idem)

/-- A stripped list has no trailing whitespace. -/
theorem pyStripL_back (l : List Char) :
    List.dropWhile pyIsSpace (pyStripL l).reverse = (pyStripL l).reverse := by
  unfold pyStripL
  rw [List.reverse_reverse]
  exact dropWhile_idem pyIsSpace _

/-- Mapping a whitespace-preserving function over a list without leading
whitespace keeps it without leading whitespace. -/
theorem dropWhile_map_of_self (f : Char → Char)
    (hf : ∀ c, pyIsSpace c = false → pyIsSpace (f c) = false) (m : List Char)
    (hm : List.dropWhile pyIsSpace m = m) :
    List.dropWhile pyIsSpace (m.map f) = m.map f := by
  cases m with
  | nil => rfl
  | cons c t =>
    have hc := dropWhile_eq_self_head pyIsSpace c t hm
    simp [List.dropWhile_cons, hf c hc]

/-- Stripping a slug-mapped stripped list changes nothing. -/
theorem pyStripL_map_slug (m : List Char)
    (h1 : List.dropWhile pyIsSpace m = m)
    (h2 : List.dropWhile pyIsSpace m.reverse = m.reverse) :
    pyStripL (m.map slugChar) = m.map slugChar := by
  unfold pyStripL
  rw [dropWhile_map_of_self slugChar slugChar_not_space m h1]
  rw [← List.map_reverse]
  rw [dropWhile_map_of_self slugChar slugChar_not_space m.reverse h2]
  rw [List.map_reverse, List.reverse_reverse]

/-- Mapping the idempotent slug character map twice is mapping it
once. -/
theorem map_slugChar_map (m : List Char) :
    (m.map slugChar).map slugChar = m.map slugChar := by
  induction m with
  | nil => rfl
  | cons c t ih =>
    simp only [List.map_cons]
    rw [slugChar_idem c, ih]

/-- C10: `_slugify` is idempotent, and consequently the `sku_code` and
`party_code` the master transformer emits are fixed points of `_slugify`
— re-slugging them on a later sync changes nothing. -/
theorem slugify_idempotent_codes :
    (∀ s : String, slugify (slugify s) = slugify s) ∧
    (∀ (r : RawRecord) (u : URec), masterTransformOne r = .ok (some u) →
      slugify u.sku_code = u.sku_code ∧ slugify u.party_code = u.party_code) := by
  have hidem : ∀ s : String, slugify (slugify s) = slugify s := by
    intro s
    rw [slugify_eq_map, slugify_eq_map]
    refine congrArg String.mk ?_
    show ((pyStripL ((pyStripL s.data).map slugChar)).map slugChar) =
      (pyStripL s.data).map slugChar
    rw [pyStripL_map_slug ((pyStripL s.data)) (pyStripL_front _) (pyStripL_back _)]
    exact map_slugChar_map (pyStripL s.data)
  have hempty : slugify "" = "" := rfl
  refine ⟨hidem, ?_⟩
  intro r u hu
  unfold masterTransformOne at hu
  by_cases h1 : r.record_type = "stock_item"
  · rw [if_pos h1] at hu
    unfold transformStockItem at hu
    by_cases h2 : r.name = ""
    · rw [if_pos h2] at hu
      simp [Except.map] at hu
    · rw [if_neg h2] at hu
      simp only [Except.map, Except.ok.injEq, Option.some.injEq] at hu
      subst hu
      exact ⟨hidem r.name, hempty⟩
  · rw [if_neg h1] at hu
    by_cases h3 : r.record_type = "party"
    · rw [if_pos h3] at hu
      unfold transformParty at hu
      by_cases h2 : r.name = ""
      · rw [if_pos h2] at hu
        simp [Except.map] at hu
      · rw [if_neg h2] at hu
        simp only [Except.map, Except.ok.injEq, Option.some.injEq] at hu
        subst hu
        exact ⟨hempty, hidem r.name⟩
    · rw [if_neg h3] at hu
      simp at hu

/-- C10, instantiation: the emitted SKU code `WIDGET_A` is a fixed point
of `_slugify`. -/
theorem slugify_idempotent_codes_inst :
    slugify stockItemUnifiedA.sku_code = stockItemUnifiedA.sku_code :=
  (slugify_idempotent_codes.2 stockItemRecordA stockItemUnifiedA rfl).1

/-- C2, counterexample: the claim says a raw record without a non-empty
natural key is never emitted as a unified record; but an
`inventory_movement` record whose name, item name and voucher number are
all empty is transformed unconditionally and emitted. -/
theorem movement_empty_keys_emitted :
    transformBatch transactionTransformOne [emptyMovementRecord] =
      [transformInventoryMovement emptyMovementRecord] ∧
    emptyMovementRecord.name = "" ∧
    emptyMovementRecord.item_name = "" ∧
    emptyMovementRecord.voucher_number = "" ∧
    (transformInventoryMovement emptyMovementRecord).item_name = "" ∧
    (transformInventoryMovement emptyMovementRecord).voucher_number = "" := by
  refine ⟨rfl, rfl, rfl, rfl, rfl, rfl⟩

/-- The voucher loop stays within `batch_size` because the bound is
checked after every single append. -/
theorem voucherLoop_le (bs : ℕ) (vts : List String) :
    ∀ (l : List XML) (acc : List RawRecord), acc.length < bs →
      (voucherLoop bs vts l acc).length ≤ bs := by
  intro l
  induction l with
  | nil =>
    intro acc h
    unfold voucherLoop
    omega
  | cons v rest ih =>
    intro acc h
    simp only [voucherLoop]
    by_cases hskip : vts ≠ [] ∧ extractorText (some v) "VOUCHERTYPENAME" ∉ vts
    · rw [if_pos hskip]
      exact ih acc h
    · rw [if_neg hskip]
      by_cases hcut : bs ≤
          (acc ++ [mkVoucherRecord v (extractorText (some v) "VOUCHERTYPENAME")]).length
      · rw [if_pos hcut]
        simp only [List.length_append, List.length_cons, List.length_nil]
        omega
      · rw [if_neg hcut]
        refine ih _ ?_
        simp only [List.length_append, List.length_cons, List.length_nil] at hcut ⊢
        omega

/-- The movement entry loop emits at most one record per entry. -/
theorem movementEntryLoop_le (vt vn vd : String) :
    ∀ (es : List XML) (res : List RawRecord),
      movementEntryLoop vt vn vd es = .ok res → res.length ≤ es.length := by
  intro es
  induction es with
  | nil =>
    intro res h
    simp only [movementEntryLoop, Except.ok.injEq] at h
    subst h
    simp
  | cons entry rest ih =>
    intro res h
    simp only [movementEntryLoop] at h
    by_cases hskip : extractorText (some entry) "STOCKITEMNAME" = ""
    · rw [if_pos hskip] at h
      have := ih res h
      simp only [List.length_cons]
      omega
    · rw [if_neg hskip] at h
      split at h
      · simp at h
      · split at h
        · simp at h
        · rename_i tail htail
          simp only [Except.ok.injEq] at h
          subst h
          have := ih tail htail
          simp only [List.length_cons]
          omega

/-- The movement voucher loop only checks the bound between vouchers, so
it can exceed `batch_size` by at most one voucher's entries: with at most
`k` inventory entries per voucher the result stays within
`batch_size - 1 + k`. -/
theorem movementVoucherLoop_le (bs k : ℕ) :
    ∀ (l : List XML) (acc res : List RawRecord),
      (∀ v ∈ l, (iterCollection v "INVENTORYENTRIES.LIST").length ≤ k) →
      acc.length < bs →
      movementVoucherLoop bs l acc = .ok res → res.length ≤ bs - 1 + k := by
  intro l
  induction l with
  | nil =>
    intro acc res hk hacc h
    simp only [movementVoucherLoop, Except.ok.injEq] at h
    subst h
    omega
  | cons v rest ih =>
    intro acc res hk hacc h
    simp only [movementVoucherLoop] at h
    split at h
    · simp at h
    · rename_i entries hentries
      have hel : entries.length ≤ k :=
        le_trans (movementEntryLoop_le _ _ _ _ _ hentries) (hk v (by simp))
      by_cases hcut : bs ≤ (acc ++ entries).length
      · rw [if_pos hcut] at h
        simp only [Except.ok.injEq] at h
        subst h
        simp only [List.length_append]
        omega
      · rw [if_neg hcut] at h
        refine ih (acc ++ entries) res (fun w hw => hk w (by simp [hw])) ?_ h
        simp only [List.length_append] at hcut ⊢
        omega

/-- C1, counterexample: the claim says every extractor's `extract` returns
at most `batch_size` records; `MasterExtractor.extract` with
`batch_size = 1` on a server holding two stock items and two parties
returns 2 records. -/
theorem master_extract_exceeds_batch :
    (MasterExtractor.extract serverTwoEach 1 none none true true).length = 2 ∧
    ¬((MasterExtractor.extract serverTwoEach 1 none none true true).length ≤ 1) := by
  refine ⟨rfl, by decide⟩

/-- C1, amended: each individual stream — ledgers, vouchers, stock items,
parties, stock balances — is truncated at `batch_size` (vouchers for
`batch_size ≥ 1`, the bound being checked after every append);
`MasterExtractor.extract` concatenates two truncated streams and is only
bounded by `2 * batch_size`; and the movement stream checks its bound
only between vouchers, so with at most `k` inventory entries per voucher
it is bounded by `batch_size - 1 + k`, and `InventoryExtractor.extract`
by that plus `batch_size` balances. -/
theorem extract_batch_bounds :
    ∀ (conn : TallyServer) (bs : ℕ) (fd td : Option String) (ii ip im ib : Bool)
      (vts : List String) (k : ℕ),
      1 ≤ bs →
      (LedgerExtractor.extract conn bs fd td).length ≤ bs ∧
      (VoucherExtractor.extract conn bs fd td vts).length ≤ bs ∧
      (MasterExtractor.extractStockItems conn bs).length ≤ bs ∧
      (MasterExtractor.extractParties conn bs).length ≤ bs ∧
      (InventoryExtractor.extractStockBalances conn bs).length ≤ bs ∧
      (MasterExtractor.extract conn bs fd td ii ip).length ≤ 2 * bs ∧
      ((∀ v ∈ iterCollection (conn (invVouchersArgs fd td)) "VOUCHER",
          (iterCollection v "INVENTORYENTRIES.LIST").length ≤ k) →
        (∀ ms, InventoryExtractor.extractMovements conn bs fd td = .ok ms →
          ms.length ≤ bs - 1 + k) ∧
        (∀ rs, InventoryExtractor.extract conn bs fd td im ib = .ok rs →
          rs.length ≤ (bs - 1 + k) + bs)) := by
  intro conn bs fd td ii ip im ib vts k hbs
  have htake : ∀ (l : List RawRecord), (l.take bs).length ≤ bs := by
    intro l
    simp [List.length_take]
  have hledger : (LedgerExtractor.extract conn bs fd td).length ≤ bs := htake _
  have hitems : (MasterExtractor.extractStockItems conn bs).length ≤ bs := htake _
  have hparties : (MasterExtractor.extractParties conn bs).length ≤ bs := htake _
  have hbal : (InventoryExtractor.extractStockBalances conn bs).length ≤ bs := htake _
  have hvoucher : (VoucherExtractor.extract conn bs fd td vts).length ≤ bs :=
    voucherLoop_le bs vts _ [] (by simpa using hbs)
  have hmaster : (MasterExtractor.extract conn bs fd td ii ip).length ≤ 2 * bs := by
    unfold MasterExtractor.extract
    simp only [List.length_append]
    have h1 : (if ii then MasterExtractor.extractStockItems conn bs else []).length ≤ bs := by
      cases ii
      · simp
      · simpa using hitems
    have h2 : (if ip then MasterExtractor.extractParties conn bs else []).length ≤ bs := by
      cases ip
      · simp
      · simpa using hparties
    omega
  refine ⟨hledger, hvoucher, hitems, hparties, hbal, hmaster, ?_⟩
  intro hk
  have hmov : ∀ ms, InventoryExtractor.extractMovements conn bs fd td = .ok ms →
      ms.length ≤ bs - 1 + k := by
    intro ms hms
    unfold InventoryExtractor.extractMovements at hms
    exact movementVoucherLoop_le bs k _ [] ms hk (by simpa using hbs) hms
  refine ⟨hmov, ?_⟩
  intro rs hrs
  unfold InventoryExtractor.extract at hrs
  split at hrs
  · simp at hrs
  · rename_i movements hmovements
    simp only [Except.ok.injEq] at hrs
    subst hrs
    have hm : movements.length ≤ bs - 1 + k := by
      cases im with
      | false =>
        simp only [if_false, Bool.false_eq_true] at hmovements
        simp only [Except.ok.injEq] at hmovements
        subst hmovements
        simp
      | true =>
        simp only [if_true] at hmovements
        exact hmov movements hmovements
    have hb : (if ib then InventoryExtractor.extractStockBalances conn bs else []).length ≤ bs := by
      cases ib
      · simp
      · simpa using hbal
    simp only [List.length_append]
    omega

/-- C1, instantiation of the amended bounds at `batch_size = 1` on the
two-each server. -/
theorem extract_batch_bounds_inst :
    (MasterExtractor.extract serverTwoEach 1 none none true true).length ≤ 2 * 1 ∧
    (LedgerExtractor.extract serverTwoEach 1 none none).length ≤ 1 ∧
    (∀ ms, InventoryExtractor.extractMovements serverTwoEach 1 none none = .ok ms →
      ms.length ≤ 1 - 1 + 0) := by
  have h := extract_batch_bounds serverTwoEach 1 none none true true true true
    defaultVoucherTypes 0 (by decide)
  have hv : ∀ v ∈ iterCollection (serverTwoEach (invVouchersArgs none none)) "VOUCHER",
      (iterCollection v "INVENTORYENTRIES.LIST").length ≤ 0 := by
    decide
  exact ⟨h.2.2.2.2.2.1, h.1, (h.2.2.2.2.2.2 hv).1⟩

end Tally
